import Mathlib

/-!
Shallow embedding of the paper-scraping component of LLM-Planning-Viz
(`paper-scraping/arxiv_searcher.py` and `paper-scraping/streamlit_app.py`),
together with proofs of the behavioural properties stated in the design
specification.

Conventions of the embedding:
  * Python strings are Lean `String` (in this toolchain a wrapper around
    `List Char`); the Python operations `in`, `lower()` and `replace` that
    the source uses are modelled explicitly below over the character list.
  * The external arXiv client (`arxiv.Client` / `client.results`) is an
    oracle parameter of type `ApiRequest → List ArxivResult × Option String`:
    for a request it yields the list of result objects produced by the
    result generator before it either finishes normally (`none`) or raises
    an exception with a message (`some msg`).
  * Python exceptions that escape a function are `Except`; exceptions that
    are caught inside `search` are visible as the `Option String` component
    of the oracle answer and in the accumulated error log.
  * The Python `dict` that `search` accumulates is an association list in
    insertion order; assignment to an existing key overwrites in place.
-/

/-- Model of the Python substring test `pat in s`: `pat` occurs as a
contiguous substring of `s` (true for the empty pattern, as in Python). -/
def strContains (s pat : String) : Bool :=
  s.data.tails.any (fun suffix => pat.data.isPrefixOf suffix)

/-- Model of Python `str.lower()`, character by character. The keywords and
titles this program compares are ASCII, where `Char.toLower` agrees with
Python. -/
def strLower (s : String) : String :=
  ⟨s.data.map Char.toLower⟩

/-- One left-to-right pass replacing every non-overlapping occurrence of
`pat` by `rep`, the semantics of Python `str.replace` for a non-empty
pattern. The first argument is recursion fuel; with fuel at least the
length of the scanned list the zero-fuel branch is never reached. -/
def replaceChars (pat rep : List Char) : Nat → List Char → List Char
  | _, [] => []
  | 0, l => l
  | fuel + 1, c :: rest =>
    if pat.isPrefixOf (c :: rest) ∧ pat ≠ [] then
      rep ++ replaceChars pat rep fuel (rest.drop (pat.length - 1))
    else
      c :: replaceChars pat rep fuel rest

/-- Model of Python `str.replace` as the source uses it, in
`result.entry_id.replace("abs", "pdf")`. The call site always passes the
non-empty pattern "abs"; for an empty pattern this model returns the string
unchanged. -/
def pythonReplace (s pat rep : String) : String :=
  ⟨replaceChars pat.data rep.data s.data.length s.data⟩

/-- Numeric value of a decimal digit string, used only to state the
chronological order of two YYYYMMDDHHMM date strings. -/
def digitsToNat (s : String) : Nat :=
  s.data.foldl (fun n c => n * 10 + (c.toNat - 48)) 0

/-- Model of `DATE_FORMAT_RE = re.compile(r"^\d{12}$")` as used through
`re.match`: `re.match` anchors at the start, `$` accepts the end of the
string or one trailing newline, and `\d` is modelled as an ASCII digit
(the date strings this program handles are ASCII). -/
def DATE_FORMAT_RE_match (date_str : String) : Bool :=
  (date_str.data.length == 12 && date_str.data.all Char.isDigit) ||
  (date_str.data.length == 13 && (date_str.data.take 12).all Char.isDigit &&
    date_str.data.getLast? == some (Char.ofNat 10))

/-- The ValueError raised by `validate_date_str`, carrying the offending
date string. -/
inductive SearchError where
  | invalidDateFormat (date_str : String)
deriving Repr, DecidableEq

/-- Source `validate_date_str` (arxiv_searcher.py, lines 103-107): raise a
ValueError when the regular expression does not match, otherwise return the
string. -/
def validate_date_str (date_str : String) : Except SearchError String :=
  if !DATE_FORMAT_RE_match date_str then
    Except.error (SearchError.invalidDateFormat date_str)
  else
    Except.ok date_str

/-- Source `DEFAULT_MUST_INCLUDE_KEYWORDS` (arxiv_searcher.py, line 48). -/
def DEFAULT_MUST_INCLUDE_KEYWORDS : List String :=
  ["large language models", "LLMs", "GPT", "BERT", "transformers"]

/-- Source `DEFAULT_OPTIONAL_KEYWORDS` (arxiv_searcher.py, lines 49-60). -/
def DEFAULT_OPTIONAL_KEYWORDS : List String :=
  ["automated planning",
   "symbolic planning",
   "neurosymbolic planning",
   "task planning",
   "AI planning",
   "PDDL",
   "constraint-based planning",
   "hierarchical task planning",
   "multi-agent planning",
   "robot planning"]

/-- Source `queries` (arxiv_searcher.py, lines 63-69): the five hard-coded
query strings. -/
def queries : List String :=
  ["cat:cs.AI AND (\"large language models\" OR \"LLMs\" OR \"GPT\" OR \"BERT\" OR transformers)",
   "cat:cs.AI AND (\"automated planning\" OR \"symbolic planning\" OR \"neurosymbolic planning\" OR \"task planning\" OR \"AI planning\")",
   "cat:cs.AI AND (\"neural-symbolic\" OR \"neurosymbolic\") AND planning",
   "cat:cs.AI AND (\"large language models\" OR \"LLMs\" OR \"GPT\" OR \"BERT\" OR transformers) AND planning",
   "cat:cs.AI AND (\"large language models\" OR \"LLMs\" OR \"GPT\" OR \"BERT\" OR transformers) AND PDDL"]

/-- One result object of the external arXiv client, with exactly the fields
the source reads: `entry_id`, `title`, `summary`, `authors` (names already
projected), the timestamps, and `short_id` standing for the opaque library
method `result.get_short_id()`. Timestamps are abstract numbers; the source
only copies them around. -/
structure ArxivResult where
  entry_id : String
  title : String
  summary : String
  authors : List String
  short_id : String
  published : Nat
  updated : Nat
deriving Repr, DecidableEq

/-- Source dataclass `Paper` (arxiv_searcher.py, lines 71-80). -/
structure Paper where
  arxiv_id : String
  title : String
  authors : List String
  abstract : String
  published : Nat
  updated : Nat
  link : String
  pdf_link : String
deriving Repr, DecidableEq

/-- The `Paper(...)` construction inside the result loop of `search`
(arxiv_searcher.py, lines 142-151). -/
def paperOfResult (result : ArxivResult) : Paper :=
  { arxiv_id := result.short_id
    title := result.title
    authors := result.authors
    abstract := result.summary
    published := result.published
    updated := result.updated
    link := result.entry_id
    pdf_link := pythonReplace result.entry_id "abs" "pdf" }

/-- Source `is_relevant` (arxiv_searcher.py, lines 83-88): lowercase the
title and the abstract joined by one space, then require a hit from the
must-include set and a hit from the optional set. -/
def is_relevant (paper : ArxivResult) (mustIncludeKeywords optional_keywords : List String) : Bool :=
  let text := strLower (paper.title ++ " " ++ paper.summary)
  mustIncludeKeywords.any (fun keyword => strContains text (strLower keyword)) &&
    optional_keywords.any (fun keyword => strContains text (strLower keyword))

/-- The two values of `arxiv.SortCriterion` the source selects between. -/
inductive SortCriterion where
  | Relevance
  | SubmittedDate
deriving Repr, DecidableEq

/-- The `sort_option` selection in `search` (arxiv_searcher.py, line 127). -/
def sortOptionOf (sort_by : String) : SortCriterion :=
  if sort_by == "relevance" then SortCriterion.Relevance else SortCriterion.SubmittedDate

/-- One request to the external client: the arguments of
`arxiv.Search(query=query, max_results=300, sort_by=sort_option)`. -/
structure ApiRequest where
  query : String
  max_results : Nat
  sort_by : SortCriterion
deriving Repr, DecidableEq

/-- The request `search` builds for one query string. -/
def reqOf (sort_option : SortCriterion) (query : String) : ApiRequest :=
  ⟨query, 300, sort_option⟩

/-- The oracle standing for `arxiv.Client`: for a request, the results the
generator yields before finishing normally (`none`) or raising an exception
with the given message (`some msg`). -/
abbrev ArxivClient : Type :=
  ApiRequest → List ArxivResult × Option String

/-- The `date_range` f-string of `search` (arxiv_searcher.py, line 126). -/
def date_range_clause (start_date end_date : String) : String :=
  "AND submittedDate:[" ++ start_date ++ " TO " ++ end_date ++ "]"

/-- The full query text `f"{query} {date_range}"` built for each of the five
hard-coded queries (arxiv_searcher.py, line 135). -/
def fullQueries (start_date end_date : String) : List String :=
  queries.map (fun query => query ++ " " ++ date_range_clause start_date end_date)

/-- Python dict assignment `papers[key] = value`: overwrite in place when
the key is present, otherwise append at the end. -/
def dictInsert (papers : List (String × Paper)) (key : String) (value : Paper) :
    List (String × Paper) :=
  if papers.any (fun entry => entry.1 == key) then
    papers.map (fun entry => if entry.1 == key then (key, value) else entry)
  else
    papers ++ [(key, value)]

/-- The body of the result loop of `search` for one yielded result
(arxiv_searcher.py, lines 140-151). -/
def relevStep (optional_keywords : List String) (papers : List (String × Paper))
    (result : ArxivResult) : List (String × Paper) :=
  if is_relevant result DEFAULT_MUST_INCLUDE_KEYWORDS optional_keywords then
    dictInsert papers result.entry_id (paperOfResult result)
  else
    papers

/-- Observable state of one `search` run: the accumulated `papers` dict, the
requests issued to the external client, and the `logging.error` entries
(offending query text paired with the exception message). -/
structure SearchOutcome where
  papers : List (String × Paper)
  issued : List ApiRequest
  errlog : List (String × String)
deriving Repr, DecidableEq

/-- One iteration of the query loop of `search` (arxiv_searcher.py, lines
133-153): build the request, consume the results the client yields, add the
relevant ones to the dict, and on an exception log the full query text with
the message and move on. -/
def runQuery (oracle : ArxivClient) (optional_keywords : List String)
    (sort_option : SortCriterion) (acc : SearchOutcome) (query : String) : SearchOutcome :=
  let req := reqOf sort_option query
  let response := oracle req
  let papers := response.1.foldl (relevStep optional_keywords) acc.papers
  match response.2 with
  | none => ⟨papers, acc.issued ++ [req], acc.errlog⟩
  | some msg => ⟨papers, acc.issued ++ [req], acc.errlog ++ [(query, msg)]⟩

/-- The keyword defaulting line of `search` (arxiv_searcher.py, line 122):
an empty (falsy) list is replaced by `DEFAULT_OPTIONAL_KEYWORDS`. -/
def effectiveOptional (optional_keywords : List String) : List String :=
  if optional_keywords.isEmpty then DEFAULT_OPTIONAL_KEYWORDS else optional_keywords

/-- Source `search` (arxiv_searcher.py, lines 110-154). Validation of the
two date strings happens before the query loop; a ValueError escapes as
`Except.error`. The query loop then folds `runQuery` over the five full
query texts starting from an empty dict, an empty request list and an empty
error log. -/
def search (oracle : ArxivClient) (optional_keywords : List String)
    (start_date end_date sort_by : String) : Except SearchError SearchOutcome :=
  let optionalKeywords := effectiveOptional optional_keywords
  match validate_date_str start_date with
  | Except.error err => Except.error err
  | Except.ok sd =>
    match validate_date_str end_date with
    | Except.error err => Except.error err
    | Except.ok ed =>
      Except.ok ((fullQueries sd ed).foldl
        (runQuery oracle optionalKeywords (sortOptionOf sort_by)) ⟨[], [], []⟩)

/-- Whether an `Except` value is a success. -/
def isOkE {ε α : Type} : Except ε α → Bool
  | Except.ok _ => true
  | Except.error _ => false

/-- The papers dict of a successful run, `[]` for a validation failure. -/
def okPapers : Except SearchError SearchOutcome → List (String × Paper)
  | Except.ok outcome => outcome.papers
  | Except.error _ => []

/-- The issued requests of a successful run, `[]` for a validation failure. -/
def okIssued : Except SearchError SearchOutcome → List ApiRequest
  | Except.ok outcome => outcome.issued
  | Except.error _ => []

/-- The error log of a successful run, `[]` for a validation failure. -/
def okErrlog : Except SearchError SearchOutcome → List (String × String)
  | Except.ok outcome => outcome.errlog
  | Except.error _ => []

/-!
Model of the Streamlit layer (`streamlit_app.py`). The session state
consists of the two keys the app initialises (lines 134-139): the stored
papers collection and the searched flag. The memoized wrapper
`search_papers` is called by the submit handler; for the session-state
claims its outcome is abstracted as an `Except`: either the returned
collection or the exception the handler catches (whose message the handler
shows with `st.error`).
-/

/-- Session state of the app: `st.session_state["papers"]` and
`st.session_state["searched"]`. The papers collection is stored as the
(identifier-keyed) association list that `search` returns; its initial
value is the empty list of line 136. -/
structure SessionState where
  papers : List (String × Paper)
  searched : Bool
deriving Repr, DecidableEq

/-- The initial session state (streamlit_app.py, lines 134-139). -/
def initialSession : SessionState :=
  ⟨[], false⟩

/-- The submit handler (streamlit_app.py, lines 176-186): set the searched
flag to False, call the memoized search (abstracted as `callResult`), store
the collection and set the flag on success, or catch the exception at top
level and display its message inline (the `Option String` component). The
date defaulting of lines 180-181 only affects the arguments of the call and
is therefore part of the abstracted `callResult`. -/
def handleSearchClick (callResult : Except String (List (String × Paper)))
    (state : SessionState) : SessionState × Option String :=
  let state := { state with searched := false }
  match callResult with
  | Except.ok found => (⟨found, true⟩, none)
  | Except.error msg => (state, some msg)

/-- Session state reached after a sequence of submit clicks, one orchestrator
outcome per click, starting from the initial state. Re-renders between
clicks do not mutate the state, so these are exactly the reachable states. -/
def runSession (calls : List (Except String (List (String × Paper)))) : SessionState :=
  calls.foldl (fun state c => (handleSearchClick c state).1) initialSession

/-- Whether the empty-results message of line 221 is rendered: the `elif`
branch of lines 219-221 fires when the searched flag is set and the stored
collection is falsy (empty). -/
def renderEmptyState (state : SessionState) : Bool :=
  state.searched && state.papers.isEmpty

/-!
Model of the memoized wrapper `search_papers` (streamlit_app.py, lines
119-126).

Modelled from the spec: the decorator `st.cache_data(ttl=timedelta(hours=1),
max_entries=1000, show_spinner=False)` is implemented by the Streamlit
framework, not by code of this repository; the model below follows the
specification text — a per-process, time-boxed (one-hour), capacity-bounded
memo keyed by the exact call arguments, whose entries expire by age or by
eviction of the oldest entry when capacity is exceeded. Time is an explicit
clock argument in seconds.
-/

/-- Time-to-live of the memo, one hour in seconds. -/
def cacheTtlSeconds : Nat := 3600

/-- Capacity bound of the memo, the `max_entries=1000` argument. -/
def cacheMaxEntries : Nat := 1000

/-- Modelled from the spec: the memo table behind `st.cache_data`, a list of
(key, value, storage time) entries in insertion order. -/
structure MemoCache (α β : Type) where
  entries : List (α × β × Nat)

/-- Whether a memo entry is still inside its one-hour window at time `now`. -/
def entryFresh {α β : Type} (now : Nat) (entry : α × β × Nat) : Bool :=
  now < entry.2.2 + cacheTtlSeconds

/-- Modelled from the spec: look up a key among the entries that are still
inside their window. -/
def lookupFresh {α β : Type} [BEq α] (cache : MemoCache α β) (key : α) (now : Nat) : Option β :=
  (cache.entries.find? (fun entry => entry.1 == key && entryFresh now entry)).map
    (fun entry => entry.2.1)

/-- Modelled from the spec: one call of the memoized function. A hit inside
the window returns the stored value without invoking the underlying
function; otherwise the underlying function runs, aged-out entries are
dropped, the oldest entries are evicted if the capacity would be exceeded,
and the new entry is stored. The third component records whether the
underlying function (and with it the network) was invoked. -/
def cachedCall {α β : Type} [BEq α] (f : α → β) (cache : MemoCache α β) (key : α)
    (now : Nat) : β × MemoCache α β × Bool :=
  match lookupFresh cache key now with
  | some v => (v, cache, false)
  | none =>
    let v := f key
    let kept := cache.entries.filter (entryFresh now)
    let kept := if cacheMaxEntries ≤ kept.length
      then kept.drop (kept.length + 1 - cacheMaxEntries) else kept
    (v, ⟨kept ++ [(key, v, now)]⟩, true)

/-!
Definitions that restate specification sentences in the words of the
specification, for comparison with the definitions taken from the source,
and concrete data used by witnesses and counterexamples.
-/

/-- The relevance test exactly as the claim words it: the lowercased
concatenation of the title and the abstract of the result (with no
separator between them) must contain a lowercased keyword from each of the
two sets. Compare with `is_relevant`, which joins the two fields with one
space character. -/
def relevantSpecWords (paper : ArxivResult) (mustIncludeKeywords optional_keywords : List String) : Bool :=
  let text := strLower (paper.title ++ paper.summary)
  mustIncludeKeywords.any (fun keyword => strContains text (strLower keyword)) &&
    optional_keywords.any (fun keyword => strContains text (strLower keyword))

/-- A client that always completes normally with no results. -/
def oracleNone : ArxivClient :=
  fun _ => ([], none)

/-- A concrete result that `is_relevant` accepts under the default keyword
sets: the text mentions GPT (must-include) and task planning (optional). -/
def resultGood : ArxivResult :=
  ⟨"http://arxiv.org/abs/2401.00002v1", "GPT for task planning",
   "We study large language models for PDDL task planning.",
   ["Ada Lovelace"], "2401.00002v1", 20240102, 20240103⟩

/-- A client that always completes normally and yields `resultGood` once. -/
def oracleOne : ArxivClient :=
  fun _ => ([resultGood], none)

/-- The first of the five full query texts for the date range of the worked
example (start 202401010000, end 202406012359). -/
def fullQueryLLM : String :=
  "cat:cs.AI AND (\"large language models\" OR \"LLMs\" OR \"GPT\" OR \"BERT\" OR transformers)"
    ++ " AND submittedDate:[202401010000 TO 202406012359]"

/-- The second of the five full query texts for the date range of the worked
example. -/
def fullQueryPlanning : String :=
  "cat:cs.AI AND (\"automated planning\" OR \"symbolic planning\" OR \"neurosymbolic planning\" OR \"task planning\" OR \"AI planning\")"
    ++ " AND submittedDate:[202401010000 TO 202406012359]"

/-- A client for which the first query raises an exception after yielding
nothing, the second query yields `resultGood`, and the remaining queries
complete normally with no results. -/
def oracleMixed : ArxivClient :=
  fun req =>
    if req.query = fullQueryLLM then ([], some "connection reset")
    else if req.query = fullQueryPlanning then ([resultGood], none)
    else ([], none)

/-- A client for which two different queries yield a result with the same
`entry_id`. -/
def oracleDup : ArxivClient :=
  fun req =>
    if req.query = fullQueryLLM then ([resultGood], none)
    else if req.query = fullQueryPlanning then ([resultGood], none)
    else ([], none)

/-- A concrete stored paper for the session-state counterexample. -/
def demoPaper : Paper :=
  ⟨"2401.00001v1", "A survey", ["Grace Hopper"], "About planning.",
   20240101, 20240101, "http://arxiv.org/abs/2401.00001v1",
   "http://arxiv.org/pdf/2401.00001v1"⟩

/-- A result whose title stops in the middle of the keyword GPT, which the
abstract then completes: the two fields joined without a separator contain
GPT, the space-joined text of the source does not. -/
def paperGP : ArxivResult :=
  ⟨"http://arxiv.org/abs/2401.00003v1", "Models called GP",
   "T uses PDDL.", [], "2401.00003v1", 0, 0⟩

/-- Call arguments of the memoized `search_papers` wrapper: the exact tuple
(keywords, start_date, end_date, sort_opt) that keys the memo. The two
dates are abstracted as day ordinals. -/
structure SearchArgs where
  keywords : String
  start_date : Nat
  end_date : Nat
  sort_opt : String
deriving Repr, DecidableEq

/-- An empty memo for the memoization witness. -/
def emptyMemo : MemoCache SearchArgs (List (String × Paper)) :=
  ⟨[]⟩

/-- A concrete argument tuple for the memoization witness. -/
def demoArgs : SearchArgs :=
  ⟨"", 20240101, 20241231, "relevance"⟩

/-- A concrete underlying search computation for the memoization witness. -/
def demoSearchFn : SearchArgs → List (String × Paper) :=
  fun _ => [("k", demoPaper)]

/-!
General lemmas about the embedded operations.
-/

/-- Substring containment agrees with the contiguous-sublist relation on the
character lists. -/
theorem strContains_iff (s pat : String) :
    strContains s pat = true ↔ pat.data <:+: s.data := by
  unfold strContains
  rw [List.any_eq_true]
  constructor
  · rintro ⟨t, ht, hp⟩
    rw [List.mem_tails t s.data] at ht
    exact List.infix_iff_prefix_suffix.mpr ⟨t, List.isPrefixOf_iff_prefix.mp hp, ht⟩
  · intro h
    obtain ⟨t, hp, ht⟩ := List.infix_iff_prefix_suffix.mp h
    exact ⟨t, (List.mem_tails t s.data).mpr ht, List.isPrefixOf_iff_prefix.mpr hp⟩

/-- When no element of the first list satisfies the test, searching the
concatenation searches the second list. -/
theorem find?_append_of_none {α : Type} (p : α → Bool) (l₁ l₂ : List α)
    (h : l₁.find? p = none) : (l₁ ++ l₂).find? p = l₂.find? p := by
  induction l₁ with
  | nil => rfl
  | cons a l ih =>
    cases hpa : p a with
    | false =>
      rw [List.find?_cons_of_neg _ (by simp [hpa])] at h
      rw [List.cons_append, List.find?_cons_of_neg _ (by simp [hpa])]
      exact ih h
    | true =>
      rw [List.find?_cons_of_pos _ hpa] at h
      cases h

/-- Two lists extended by one element each are equal exactly when the stems
and the added elements are. -/
theorem append_singleton_eq_iff {α : Type} (l : List α) (a b : α) :
    (∃ pre, l ++ [a] = pre ++ [b]) ↔ a = b := by
  constructor
  · rintro ⟨pre, h⟩
    have hlen : l.length = pre.length := by
      have hl := congrArg List.length h
      simpa using hl
    have htail := List.append_inj_right h hlen
    simpa using htail
  · rintro rfl
    exact ⟨l, rfl⟩

/-- The request `runQuery` appends regardless of whether the client raised. -/
theorem runQuery_issued (oracle : ArxivClient) (opt : List String) (sort : SortCriterion)
    (acc : SearchOutcome) (q : String) :
    (runQuery oracle opt sort acc q).issued = acc.issued ++ [reqOf sort q] := by
  simp only [runQuery]
  cases h : (oracle (reqOf sort q)).2 <;> simp [h]

/-- Every query of the loop issues exactly one request, in order. -/
theorem foldl_runQuery_issued (oracle : ArxivClient) (opt : List String) (sort : SortCriterion)
    (qs : List String) (acc : SearchOutcome) :
    (qs.foldl (runQuery oracle opt sort) acc).issued = acc.issued ++ qs.map (reqOf sort) := by
  induction qs generalizing acc with
  | nil => simp
  | cons q rest ih => simp [List.foldl_cons, ih, runQuery_issued, List.append_assoc]

/-- The log entry one query contributes: the full query text paired with the
exception message, when the client raised. -/
def logEntryOf (oracle : ArxivClient) (sort : SortCriterion) (q : String) :
    Option (String × String) :=
  ((oracle (reqOf sort q)).2).map (fun msg => (q, msg))

/-- The error log `runQuery` leaves behind. -/
theorem runQuery_errlog (oracle : ArxivClient) (opt : List String) (sort : SortCriterion)
    (acc : SearchOutcome) (q : String) :
    (runQuery oracle opt sort acc q).errlog = acc.errlog ++ (logEntryOf oracle sort q).toList := by
  simp only [runQuery, logEntryOf]
  cases h : (oracle (reqOf sort q)).2 <;> simp [h]

/-- The error log of the whole loop: one entry per failing query, in order. -/
theorem foldl_runQuery_errlog (oracle : ArxivClient) (opt : List String) (sort : SortCriterion)
    (qs : List String) (acc : SearchOutcome) :
    (qs.foldl (runQuery oracle opt sort) acc).errlog =
      acc.errlog ++ qs.filterMap (logEntryOf oracle sort) := by
  induction qs generalizing acc with
  | nil => simp
  | cons q rest ih =>
    rw [List.foldl_cons, ih, runQuery_errlog, List.filterMap_cons]
    cases h : logEntryOf oracle sort q <;> simp [h, List.append_assoc]

/-- The papers dict `runQuery` leaves behind: the relevant results the
client yielded, folded onto the incoming dict (also when the client raised
afterwards). -/
theorem runQuery_papers (oracle : ArxivClient) (opt : List String) (sort : SortCriterion)
    (acc : SearchOutcome) (q : String) :
    (runQuery oracle opt sort acc q).papers =
      (oracle (reqOf sort q)).1.foldl (relevStep opt) acc.papers := by
  simp only [runQuery]
  cases h : (oracle (reqOf sort q)).2 <;> simp [h]

/-- The key list of the dict after an assignment: unchanged on overwrite,
extended by the new key otherwise. -/
theorem dictInsert_keys (papers : List (String × Paper)) (key : String) (value : Paper) :
    (dictInsert papers key value).map Prod.fst =
      if papers.any (fun entry => entry.1 == key)
      then papers.map Prod.fst
      else papers.map Prod.fst ++ [key] := by
  unfold dictInsert
  by_cases h : papers.any (fun entry => entry.1 == key) = true
  · rw [if_pos h, if_pos h, List.map_map]
    apply List.map_congr_left
    intro entry _
    by_cases he : entry.1 == key
    · simp only [Function.comp_apply, if_pos he]
      exact (eq_of_beq he).symm
    · simp only [Function.comp_apply, if_neg he]
  · rw [if_neg h, if_neg h, List.map_append]
    rfl

/-- An assigned key is present afterwards. -/
theorem mem_dictInsert_keys (papers : List (String × Paper)) (key : String) (value : Paper) :
    key ∈ (dictInsert papers key value).map Prod.fst := by
  rw [dictInsert_keys]
  by_cases h : papers.any (fun entry => entry.1 == key) = true
  · rw [if_pos h]
    obtain ⟨entry, hmem, hbeq⟩ := List.any_eq_true.mp h
    exact List.mem_map.mpr ⟨entry, hmem, eq_of_beq hbeq⟩
  · rw [if_neg h]
    exact List.mem_append_right _ (List.mem_singleton.mpr rfl)

/-- Assignment never removes a key. -/
theorem mem_keys_dictInsert (papers : List (String × Paper)) (key : String) (value : Paper)
    (k : String) (h : k ∈ papers.map Prod.fst) :
    k ∈ (dictInsert papers key value).map Prod.fst := by
  rw [dictInsert_keys]
  split
  · exact h
  · exact List.mem_append_left _ h

/-- Assignment keeps the keys free of duplicates. -/
theorem dictInsert_keys_nodup (papers : List (String × Paper)) (key : String) (value : Paper)
    (h : (papers.map Prod.fst).Nodup) :
    ((dictInsert papers key value).map Prod.fst).Nodup := by
  rw [dictInsert_keys]
  split
  · exact h
  · rename_i hany
    have hnot : key ∉ papers.map Prod.fst := by
      intro hk
      obtain ⟨entry, hmem, hfst⟩ := List.mem_map.mp hk
      exact hany (List.any_eq_true.mpr ⟨entry, hmem, by simp [hfst]⟩)
    simp [List.nodup_append, h, hnot]

/-- Processing one yielded result never removes a key. -/
theorem relevStep_keys_mono (opt : List String) (papers : List (String × Paper))
    (result : ArxivResult) (k : String) (h : k ∈ papers.map Prod.fst) :
    k ∈ (relevStep opt papers result).map Prod.fst := by
  unfold relevStep
  split
  · exact mem_keys_dictInsert _ _ _ _ h
  · exact h

/-- Processing one yielded result keeps the keys free of duplicates. -/
theorem relevStep_keys_nodup (opt : List String) (papers : List (String × Paper))
    (result : ArxivResult) (h : (papers.map Prod.fst).Nodup) :
    ((relevStep opt papers result).map Prod.fst).Nodup := by
  unfold relevStep
  split
  · exact dictInsert_keys_nodup _ _ _ h
  · exact h

/-- Processing a result list never removes a key. -/
theorem foldl_relevStep_mono (opt : List String) (results : List ArxivResult)
    (papers : List (String × Paper)) (k : String) (h : k ∈ papers.map Prod.fst) :
    k ∈ (results.foldl (relevStep opt) papers).map Prod.fst := by
  induction results generalizing papers with
  | nil => exact h
  | cons r rest ih => exact ih _ (relevStep_keys_mono _ _ _ _ h)

/-- Processing a result list keeps the keys free of duplicates. -/
theorem foldl_relevStep_nodup (opt : List String) (results : List ArxivResult)
    (papers : List (String × Paper)) (h : (papers.map Prod.fst).Nodup) :
    ((results.foldl (relevStep opt) papers).map Prod.fst).Nodup := by
  induction results generalizing papers with
  | nil => exact h
  | cons r rest ih => exact ih _ (relevStep_keys_nodup _ _ _ h)

/-- A relevant yielded result ends up in the dict under its identifier. -/
theorem mem_foldl_relevStep (opt : List String) (results : List ArxivResult)
    (papers : List (String × Paper)) (result : ArxivResult)
    (hmem : result ∈ results)
    (hrel : is_relevant result DEFAULT_MUST_INCLUDE_KEYWORDS opt = true) :
    result.entry_id ∈ (results.foldl (relevStep opt) papers).map Prod.fst := by
  induction results generalizing papers with
  | nil => cases hmem
  | cons r rest ih =>
    rcases List.mem_cons.mp hmem with heq | hmem2
    · subst heq
      rw [List.foldl_cons]
      refine foldl_relevStep_mono _ _ _ _ ?_
      unfold relevStep
      rw [if_pos hrel]
      exact mem_dictInsert_keys _ _ _
    · exact ih _ hmem2

/-- One query iteration never removes a key from the dict. -/
theorem runQuery_keys_mono (oracle : ArxivClient) (opt : List String) (sort : SortCriterion)
    (acc : SearchOutcome) (q : String) (k : String) (h : k ∈ acc.papers.map Prod.fst) :
    k ∈ (runQuery oracle opt sort acc q).papers.map Prod.fst := by
  rw [runQuery_papers]
  exact foldl_relevStep_mono _ _ _ _ h

/-- The query loop never removes a key from the dict. -/
theorem foldl_runQuery_keys_mono (oracle : ArxivClient) (opt : List String)
    (sort : SortCriterion) (qs : List String) (acc : SearchOutcome) (k : String)
    (h : k ∈ acc.papers.map Prod.fst) :
    k ∈ ((qs.foldl (runQuery oracle opt sort) acc).papers).map Prod.fst := by
  induction qs generalizing acc with
  | nil => exact h
  | cons q rest ih => exact ih _ (runQuery_keys_mono _ _ _ _ _ _ h)

/-- The query loop keeps the keys free of duplicates. -/
theorem foldl_runQuery_nodup (oracle : ArxivClient) (opt : List String)
    (sort : SortCriterion) (qs : List String) (acc : SearchOutcome)
    (h : (acc.papers.map Prod.fst).Nodup) :
    (((qs.foldl (runQuery oracle opt sort) acc).papers).map Prod.fst).Nodup := by
  induction qs generalizing acc with
  | nil => exact h
  | cons q rest ih =>
    refine ih _ ?_
    rw [runQuery_papers]
    exact foldl_relevStep_nodup _ _ _ h

/-- A relevant result yielded for any query of the loop ends up in the final
dict under its identifier. -/
theorem mem_foldl_runQuery (oracle : ArxivClient) (opt : List String) (sort : SortCriterion)
    (qs : List String) (acc : SearchOutcome) (q : String) (result : ArxivResult)
    (hq : q ∈ qs) (hr : result ∈ (oracle (reqOf sort q)).1)
    (hrel : is_relevant result DEFAULT_MUST_INCLUDE_KEYWORDS opt = true) :
    result.entry_id ∈ ((qs.foldl (runQuery oracle opt sort) acc).papers).map Prod.fst := by
  induction qs generalizing acc with
  | nil => cases hq
  | cons q0 rest ih =>
    rcases List.mem_cons.mp hq with heq | hmem2
    · subst heq
      rw [List.foldl_cons]
      refine foldl_runQuery_keys_mono _ _ _ _ _ _ ?_
      rw [runQuery_papers]
      exact mem_foldl_relevStep _ _ _ _ hr hrel
    · exact ih _ hmem2

/-- Reduction of `search` when both date strings pass validation. -/
theorem search_ok (oracle : ArxivClient) (ks : List String) (s e sb : String)
    (hs : DATE_FORMAT_RE_match s = true) (he : DATE_FORMAT_RE_match e = true) :
    search oracle ks s e sb = Except.ok ((fullQueries s e).foldl
      (runQuery oracle (effectiveOptional ks) (sortOptionOf sb)) ⟨[], [], []⟩) := by
  unfold search validate_date_str
  simp [hs, he]

/-- Appending one click to a session history runs the handler once on the
state the history reached. -/
theorem runSession_concat (calls : List (Except String (List (String × Paper))))
    (c : Except String (List (String × Paper))) :
    runSession (calls ++ [c]) = (handleSearchClick c (runSession calls)).1 := by
  simp [runSession, List.foldl_append]

/-- A memo lookup misses exactly when the underlying list search does. -/
theorem lookupFresh_eq_none_iff {α β : Type} [BEq α] (cache : MemoCache α β) (key : α)
    (now : Nat) :
    lookupFresh cache key now = none ↔
      cache.entries.find? (fun entry => entry.1 == key && entryFresh now entry) = none := by
  unfold lookupFresh
  cases h : cache.entries.find? (fun entry => entry.1 == key && entryFresh now entry) <;>
    simp [h]

/-- A memo hit returns the stored value, leaves the memo unchanged and does
not invoke the underlying function. -/
theorem cachedCall_hit {α β : Type} [BEq α] (f : α → β) (cache : MemoCache α β) (key : α)
    (t : Nat) (v : β) (h : lookupFresh cache key t = some v) :
    cachedCall f cache key t = (v, cache, false) := by
  unfold cachedCall
  rw [h]

/-- A memo miss invokes the underlying function. -/
theorem cachedCall_miss_called {α β : Type} [BEq α] (f : α → β) (cache : MemoCache α β)
    (key : α) (t : Nat) (h : lookupFresh cache key t = none) :
    (cachedCall f cache key t).2.2 = true := by
  unfold cachedCall
  rw [h]

/-- After a miss the memo holds some surviving older entries, none of which
carries the looked-up key, followed by the fresh entry; the call computed
and returned the underlying value. -/
theorem cachedCall_miss {α β : Type} [BEq α] (f : α → β) (cache : MemoCache α β) (key : α)
    (t1 : Nat) (hfresh : lookupFresh cache key t1 = none) :
    ∃ old, (cachedCall f cache key t1).1 = f key ∧
      (cachedCall f cache key t1).2.2 = true ∧
      (cachedCall f cache key t1).2.1.entries = old ++ [(key, f key, t1)] ∧
      ∀ entry ∈ old, (entry.1 == key) = false := by
  have hfind := (lookupFresh_eq_none_iff cache key t1).mp hfresh
  unfold cachedCall
  rw [hfresh]
  refine ⟨_, rfl, rfl, rfl, ?_⟩
  intro entry hmem
  have hmem1 : entry ∈ cache.entries.filter (entryFresh t1) := by
    split at hmem
    · exact List.drop_subset _ _ hmem
    · exact hmem
  have hentry := List.mem_filter.mp hmem1
  have hnone := List.find?_eq_none.mp hfind entry hentry.1
  cases hbeq : (entry.1 == key) with
  | false => rfl
  | true =>
    exact absurd (by rw [Bool.and_eq_true]; exact ⟨hbeq, hentry.2⟩) hnone

/-- Looking the key up again after a miss hits the freshly stored value
exactly while the one-hour window of the storing call is open. -/
theorem lookupFresh_after_miss {α β : Type} [BEq α] [LawfulBEq α] (f : α → β)
    (cache : MemoCache α β) (key : α) (t1 t : Nat)
    (hfresh : lookupFresh cache key t1 = none) :
    lookupFresh (cachedCall f cache key t1).2.1 key t =
      if t < t1 + cacheTtlSeconds then some (f key) else none := by
  obtain ⟨old, _, _, hentries, hold⟩ := cachedCall_miss f cache key t1 hfresh
  unfold lookupFresh
  rw [hentries]
  rw [find?_append_of_none _ old _ (List.find?_eq_none.mpr (by
    intro entry hmem
    simp [hold entry hmem]))]
  by_cases ht : t < t1 + cacheTtlSeconds
  · rw [if_pos ht]
    rw [List.find?_cons_of_pos _ (by simp [entryFresh, ht])]
    rfl
  · rw [if_neg ht]
    rw [List.find?_cons_of_neg _ (by simp [entryFresh, ht])]
    rfl

set_option maxRecDepth 10000

/-!
The claims.
-/

/-- Claim C1, counterexample. The claim states that a call whose end date is
strictly before its start date fails with a validation error before any
network call. On the source this is false: with start 202406012359 and end
202401010000 (both matching the date pattern, end chronologically before
start) `search` succeeds and issues all five requests to the client. -/
theorem C1_counterexample :
    digitsToNat "202401010000" < digitsToNat "202406012359" ∧
    isOkE (search oracleNone [] "202406012359" "202401010000" "submitted") = true ∧
    (okIssued (search oracleNone [] "202406012359" "202401010000" "submitted")).length = 5 :=
  ⟨by decide, by decide, by decide⟩

/-- Claim C1 as amended. The orchestrator never compares the two dates: for
every call in which both date strings match the twelve-digit pattern — in
particular when the end date is chronologically strictly before the start
date — no validation error is raised and all five queries are issued to the
external client. -/
theorem C1_no_date_order_check (oracle : ArxivClient) (ks : List String) (s e sb : String)
    (hs : DATE_FORMAT_RE_match s = true) (he : DATE_FORMAT_RE_match e = true)
    (hlt : digitsToNat e < digitsToNat s) :
    isOkE (search oracle ks s e sb) = true ∧
    (okIssued (search oracle ks s e sb)).length = 5 := by
  rw [search_ok oracle ks s e sb hs he]
  refine ⟨rfl, ?_⟩
  simp only [okIssued]
  rw [foldl_runQuery_issued oracle (effectiveOptional ks) (sortOptionOf sb)
    (fullQueries s e) ⟨[], [], []⟩]
  simp [fullQueries, queries]

/-- Witness for `C1_no_date_order_check` at the concrete reversed dates. -/
theorem C1_witness :
    DATE_FORMAT_RE_match "202406012359" = true ∧
    DATE_FORMAT_RE_match "202401010000" = true ∧
    digitsToNat "202401010000" < digitsToNat "202406012359" ∧
    (isOkE (search oracleOne [] "202406012359" "202401010000" "submitted") = true ∧
      (okIssued (search oracleOne [] "202406012359" "202401010000" "submitted")).length = 5) :=
  ⟨by decide, by decide, by decide,
    C1_no_date_order_check oracleOne [] "202406012359" "202401010000" "submitted"
      (by decide) (by decide) (by decide)⟩

/-- Claim C2, counterexample. The claim reads the filter text as the
lowercased concatenation of title and abstract; the source joins the two
fields with one space character. For `paperGP` (title ending in GP,
abstract starting with T) the claimed predicate holds while `is_relevant`
returns false, so the stated equivalence fails. -/
theorem C2_counterexample :
    is_relevant paperGP ["GPT"] ["PDDL"] = false ∧
    relevantSpecWords paperGP ["GPT"] ["PDDL"] = true :=
  ⟨by decide, by decide⟩

/-- Claim C2 as amended. The relevance filter returns true exactly when the
lowercased space-separated concatenation of the title and the abstract
contains, as a contiguous substring, at least one lowercased keyword of the
must-include set and at least one lowercased keyword of the optional set. -/
theorem C2_relevance_filter_characterization (paper : ArxivResult)
    (mustIncludeKeywords optional_keywords : List String) :
    is_relevant paper mustIncludeKeywords optional_keywords = true ↔
      ((∃ keyword ∈ mustIncludeKeywords,
          (strLower keyword).data <:+: (strLower (paper.title ++ " " ++ paper.summary)).data) ∧
        (∃ keyword ∈ optional_keywords,
          (strLower keyword).data <:+: (strLower (paper.title ++ " " ++ paper.summary)).data)) := by
  unfold is_relevant
  rw [Bool.and_eq_true, List.any_eq_true, List.any_eq_true]
  simp only [strContains_iff]

/-- Claim C3, counterexample. For keywords PDDL and the dates of the worked
example the orchestrator does not emit the claimed single query string
`cat:cs.AI AND (PDDL) AND submittedDate:[202401010000 TO 202406012359]`:
the emitted query list neither contains it nor equals the singleton list
holding it. The keyword input plays no part in query construction. -/
theorem C3_counterexample :
    (((okIssued (search oracleNone ["PDDL"] "202401010000" "202406012359" "submitted")).map
        (fun req => req.query)).contains
      "cat:cs.AI AND (PDDL) AND submittedDate:[202401010000 TO 202406012359]") = false ∧
    (((okIssued (search oracleNone ["PDDL"] "202401010000" "202406012359" "submitted")).map
        (fun req => req.query)) ==
      ["cat:cs.AI AND (PDDL) AND submittedDate:[202401010000 TO 202406012359]"]) = false :=
  ⟨by decide, by decide⟩

/-- Claim C3 as amended. For start 202401010000, end 202406012359 and sort
submitted, whatever the client answers, the orchestrator issues exactly the
five hard-coded query strings, each suffixed with the date-range clause
` AND submittedDate:[202401010000 TO 202406012359]`, with maximum result
count 300 and the submitted-date sort criterion. -/
theorem C3_emitted_query_strings (oracle : ArxivClient) :
    okIssued (search oracle ["PDDL"] "202401010000" "202406012359" "submitted") =
      queries.map (fun query => reqOf SortCriterion.SubmittedDate
        (query ++ " AND submittedDate:[202401010000 TO 202406012359]")) := by
  rw [search_ok oracle ["PDDL"] "202401010000" "202406012359" "submitted"
    (by decide) (by decide)]
  simp only [okIssued, foldl_runQuery_issued]
  decide

/-- Claim C4, confirmed. A call of `search` raises a validation error (and
is otherwise a success) exactly when at least one of the two date strings
fails the twelve-digit pattern of `DATE_FORMAT_RE`; and whenever validation
fails the outcome does not depend on the external client at all — no
network request is consulted. -/
theorem C4_date_validation_iff (oracleA oracleB : ArxivClient) (ks : List String)
    (s e sb : String) :
    isOkE (search oracleA ks s e sb) = (DATE_FORMAT_RE_match s && DATE_FORMAT_RE_match e) ∧
    ((DATE_FORMAT_RE_match s && DATE_FORMAT_RE_match e) = false →
      search oracleA ks s e sb = search oracleB ks s e sb) := by
  unfold search validate_date_str
  cases hs : DATE_FORMAT_RE_match s <;> cases he : DATE_FORMAT_RE_match e <;>
    simp [hs, he, isOkE]

/-- Witness for `C4_date_validation_iff` at a malformed start date. -/
theorem C4_witness :
    (DATE_FORMAT_RE_match "2024" && DATE_FORMAT_RE_match "202406012359") = false ∧
    search oracleNone [] "2024" "202406012359" "submitted" =
      search oracleOne [] "2024" "202406012359" "submitted" :=
  ⟨by decide,
    (C4_date_validation_iff oracleNone oracleOne [] "2024" "202406012359" "submitted").2
      (by decide)⟩

/-- Claim C5, confirmed. When both dates validate, a failing query does not
abort the run: every one of the five full queries is issued to the client,
a query whose client call raised is logged in the error log together with
its full query text and the exception message, and a relevant result
yielded for any (other or same) query is retained in the returned mapping
under its identifier. -/
theorem C5_per_query_failure_isolation (oracle : ArxivClient) (ks : List String)
    (s e sb q msg qq : String) (result : ArxivResult)
    (hs : DATE_FORMAT_RE_match s = true) (he : DATE_FORMAT_RE_match e = true)
    (hq : q ∈ fullQueries s e)
    (hmsg : (oracle (reqOf (sortOptionOf sb) q)).2 = some msg)
    (hqq : qq ∈ fullQueries s e)
    (hr : result ∈ (oracle (reqOf (sortOptionOf sb) qq)).1)
    (hrel : is_relevant result DEFAULT_MUST_INCLUDE_KEYWORDS (effectiveOptional ks) = true) :
    okIssued (search oracle ks s e sb) = (fullQueries s e).map (reqOf (sortOptionOf sb)) ∧
    (q, msg) ∈ okErrlog (search oracle ks s e sb) ∧
    result.entry_id ∈ (okPapers (search oracle ks s e sb)).map Prod.fst := by
  rw [search_ok oracle ks s e sb hs he]
  refine ⟨?_, ?_, ?_⟩
  · simp [okIssued, foldl_runQuery_issued]
  · simp only [okErrlog, foldl_runQuery_errlog, List.nil_append]
    exact List.mem_filterMap.mpr ⟨q, hq, by simp [logEntryOf, hmsg]⟩
  · simp only [okPapers]
    exact mem_foldl_runQuery _ _ _ _ _ _ _ hqq hr hrel

/-- Witness for `C5_per_query_failure_isolation`: the first query raises,
the second yields a relevant result, and the run keeps all five requests,
the log entry and the result. -/
theorem C5_witness :
    DATE_FORMAT_RE_match "202401010000" = true ∧
    DATE_FORMAT_RE_match "202406012359" = true ∧
    fullQueryLLM ∈ fullQueries "202401010000" "202406012359" ∧
    (oracleMixed (reqOf (sortOptionOf "submitted") fullQueryLLM)).2 = some "connection reset" ∧
    fullQueryPlanning ∈ fullQueries "202401010000" "202406012359" ∧
    resultGood ∈ (oracleMixed (reqOf (sortOptionOf "submitted") fullQueryPlanning)).1 ∧
    is_relevant resultGood DEFAULT_MUST_INCLUDE_KEYWORDS (effectiveOptional []) = true ∧
    (okIssued (search oracleMixed [] "202401010000" "202406012359" "submitted") =
        (fullQueries "202401010000" "202406012359").map (reqOf (sortOptionOf "submitted")) ∧
      (fullQueryLLM, "connection reset") ∈
        okErrlog (search oracleMixed [] "202401010000" "202406012359" "submitted") ∧
      resultGood.entry_id ∈
        (okPapers (search oracleMixed [] "202401010000" "202406012359" "submitted")).map
          Prod.fst) :=
  ⟨by decide, by decide, by decide, by decide, by decide, by decide, by decide,
    C5_per_query_failure_isolation oracleMixed [] "202401010000" "202406012359" "submitted"
      fullQueryLLM "connection reset" fullQueryPlanning resultGood
      (by decide) (by decide) (by decide) (by decide) (by decide) (by decide) (by decide)⟩

/-- Claim C6, confirmed. The returned collection is keyed by result
identifier: when both dates validate, the key list of the returned mapping
is free of duplicates, and a relevant result yielded for some query —
however many queries returned it — appears under its identifier exactly
once. -/
theorem C6_identifier_keyed_dedup (oracle : ArxivClient) (ks : List String)
    (s e sb q : String) (result : ArxivResult)
    (hs : DATE_FORMAT_RE_match s = true) (he : DATE_FORMAT_RE_match e = true)
    (hq : q ∈ fullQueries s e)
    (hr : result ∈ (oracle (reqOf (sortOptionOf sb) q)).1)
    (hrel : is_relevant result DEFAULT_MUST_INCLUDE_KEYWORDS (effectiveOptional ks) = true) :
    ((okPapers (search oracle ks s e sb)).map Prod.fst).Nodup ∧
    ((okPapers (search oracle ks s e sb)).map Prod.fst).count result.entry_id = 1 := by
  rw [search_ok oracle ks s e sb hs he]
  simp only [okPapers]
  have hnodup := foldl_runQuery_nodup oracle (effectiveOptional ks) (sortOptionOf sb)
    (fullQueries s e) ⟨[], [], []⟩ (by simp)
  have hmem := mem_foldl_runQuery oracle (effectiveOptional ks) (sortOptionOf sb)
    (fullQueries s e) ⟨[], [], []⟩ q result hq hr hrel
  exact ⟨hnodup, List.count_eq_one_of_mem hnodup hmem⟩

/-- Witness for `C6_identifier_keyed_dedup`: two different queries yield the
same result, which appears exactly once in the returned mapping. -/
theorem C6_witness :
    DATE_FORMAT_RE_match "202401010000" = true ∧
    DATE_FORMAT_RE_match "202406012359" = true ∧
    fullQueryPlanning ∈ fullQueries "202401010000" "202406012359" ∧
    resultGood ∈ (oracleDup (reqOf (sortOptionOf "submitted") fullQueryPlanning)).1 ∧
    is_relevant resultGood DEFAULT_MUST_INCLUDE_KEYWORDS (effectiveOptional []) = true ∧
    (((okPapers (search oracleDup [] "202401010000" "202406012359" "submitted")).map
        Prod.fst).Nodup ∧
      ((okPapers (search oracleDup [] "202401010000" "202406012359" "submitted")).map
        Prod.fst).count resultGood.entry_id = 1) :=
  ⟨by decide, by decide, by decide, by decide, by decide,
    C6_identifier_keyed_dedup oracleDup [] "202401010000" "202406012359" "submitted"
      fullQueryPlanning resultGood
      (by decide) (by decide) (by decide) (by decide) (by decide)⟩

/-- Claim C7, counterexample. The claim states that when the orchestrator
call raises, all prior session state — the papers collection and the
searched flag — is left unchanged. The handler however sets the searched
flag to False before the try block: starting from a state whose flag is
True, an exception leaves the flag False, not unchanged. -/
theorem C7_counterexample :
    (⟨[("k", demoPaper)], true⟩ : SessionState).searched = true ∧
    (handleSearchClick (Except.error "boom") ⟨[("k", demoPaper)], true⟩).1.searched = false :=
  ⟨rfl, rfl⟩

/-- Claim C7 as amended. When the orchestrator call raises, the handler
catches the exception at top level and displays its message inline, the
stored papers collection is left unchanged, and the searched flag — reset
to False at the start of the handler — stays False. -/
theorem C7_error_caught_papers_kept (msg : String) (state : SessionState) :
    handleSearchClick (Except.error msg) state = ({ state with searched := false }, some msg) :=
  rfl

/-- Claim C8, confirmed. Over every reachable session history, the
empty-results message is rendered exactly when the last submitted search
completed and returned the empty collection; in particular it is never
rendered before any search has been submitted (the empty history admits no
such decomposition). -/
theorem C8_empty_state_iff (calls : List (Except String (List (String × Paper)))) :
    renderEmptyState (runSession calls) = true ↔
      ∃ pre, calls = pre ++ [Except.ok ([] : List (String × Paper))] := by
  induction calls using List.reverseRecOn with
  | nil =>
    constructor
    · intro h
      simp [runSession, renderEmptyState, initialSession] at h
    · rintro ⟨pre, h⟩
      have hlen := congrArg List.length h
      simp at hlen
  | append_singleton pre c _ih =>
    rw [runSession_concat]
    cases c with
    | ok found =>
      rw [append_singleton_eq_iff pre (Except.ok found) (Except.ok [])]
      simp [handleSearchClick, renderEmptyState, List.isEmpty_iff]
    | error msg =>
      rw [append_singleton_eq_iff pre (Except.error msg) (Except.ok [])]
      simp [handleSearchClick, renderEmptyState]

/-- Claim C9, confirmed against the spec-modelled memo. Starting with no
fresh entry for the key, a first call at `t1` invokes the underlying search
and stores its value; a second call with the same arguments inside the
one-hour window returns the same value without invoking it and leaves the
memo unchanged; a call with the same arguments once the window has elapsed
invokes the underlying search afresh. -/
theorem C9_memoized_search_window (f : SearchArgs → List (String × Paper))
    (cache : MemoCache SearchArgs (List (String × Paper))) (key : SearchArgs)
    (t1 t2 t3 : Nat)
    (hfresh : lookupFresh cache key t1 = none)
    (h12 : t1 ≤ t2) (hwin : t2 < t1 + cacheTtlSeconds)
    (hexp : t1 + cacheTtlSeconds ≤ t3) :
    (cachedCall f cache key t1).2.2 = true ∧
    (cachedCall f ((cachedCall f cache key t1).2.1) key t2).1 =
      (cachedCall f cache key t1).1 ∧
    (cachedCall f ((cachedCall f cache key t1).2.1) key t2).2.2 = false ∧
    (cachedCall f ((cachedCall f cache key t1).2.1) key t2).2.1 =
      (cachedCall f cache key t1).2.1 ∧
    (cachedCall f ((cachedCall f cache key t1).2.1) key t3).2.2 = true := by
  obtain ⟨old, hv, hcalled, hentries, hold⟩ := cachedCall_miss f cache key t1 hfresh
  have h2 := lookupFresh_after_miss f cache key t1 t2 hfresh
  have h3 := lookupFresh_after_miss f cache key t1 t3 hfresh
  rw [if_pos hwin] at h2
  rw [if_neg (by omega)] at h3
  refine ⟨hcalled, ?_, ?_, ?_, ?_⟩
  · rw [cachedCall_hit f _ key t2 (f key) h2, hv]
  · rw [cachedCall_hit f _ key t2 (f key) h2]
  · rw [cachedCall_hit f _ key t2 (f key) h2]
  · exact cachedCall_miss_called f _ key t3 h3

/-- Witness for `C9_memoized_search_window` on an empty memo, calls at
second 0, second 1800 and second 3600. -/
theorem C9_witness :
    lookupFresh emptyMemo demoArgs 0 = none ∧
    (0 : Nat) ≤ 1800 ∧ 1800 < 0 + cacheTtlSeconds ∧ 0 + cacheTtlSeconds ≤ 3600 ∧
    ((cachedCall demoSearchFn emptyMemo demoArgs 0).2.2 = true ∧
      (cachedCall demoSearchFn
          ((cachedCall demoSearchFn emptyMemo demoArgs 0).2.1) demoArgs 1800).1 =
        (cachedCall demoSearchFn emptyMemo demoArgs 0).1 ∧
      (cachedCall demoSearchFn
          ((cachedCall demoSearchFn emptyMemo demoArgs 0).2.1) demoArgs 1800).2.2 = false ∧
      (cachedCall demoSearchFn
          ((cachedCall demoSearchFn emptyMemo demoArgs 0).2.1) demoArgs 1800).2.1 =
        (cachedCall demoSearchFn emptyMemo demoArgs 0).2.1 ∧
      (cachedCall demoSearchFn
          ((cachedCall demoSearchFn emptyMemo demoArgs 0).2.1) demoArgs 3600).2.2 = true) :=
  ⟨rfl, by decide, by decide, by decide,
    C9_memoized_search_window demoSearchFn emptyMemo demoArgs 0 1800 3600 rfl
      (by decide) (by decide) (by decide)⟩

/-- Claim C10, confirmed. Passing the empty optional-keywords list is the
same call as passing `DEFAULT_OPTIONAL_KEYWORDS` — the defaulting line of
`search` replaces a falsy list — and the optional set the relevance filter
actually receives is never empty. -/
theorem C10_empty_keywords_default (oracle : ArxivClient) (s e sb : String)
    (ks : List String) :
    search oracle [] s e sb = search oracle DEFAULT_OPTIONAL_KEYWORDS s e sb ∧
    (effectiveOptional ks).isEmpty = false :=
  ⟨rfl, by cases ks <;> rfl⟩
